import Mathlib

/-!
Verification of the documentation page resolution and navigation subsystem
of the last-minute-notes site.

The embedding covers:
* `DocFooter.tsx` — the previous/next computation (`neighbors`, embedding the
  `useMemo` body), the footer rendering (`renderDocFooter`) and the single
  footer link rendering (`renderFooterItemLink`, embedding `FooterItemLink`);
* `app/docs/[[...slug]]/page.tsx` — slug defaulting (`resolveParams`), page
  lookup, content materialization and the not-found branches (`renderPage`).

JavaScript semantics that matter here are embedded explicitly:
`Array.prototype.findIndex` returns `-1` when nothing matches (`findIndex`
below returns an `Int`), and reading an array at an out-of-bounds index
(negative or past the end) yields `undefined` (`jsIndex` below returns
`Option`).
-/

namespace LastMinuteNotes

/-- A flattened nav-list entry (fumadocs `PageTree.Item` as used by
`DocFooter`): `url`, `name`, and optional `description`. -/
structure Item where
  url : String
  name : String
  description : Option String
  deriving DecidableEq, Repr

/-- JavaScript `Array.prototype.findIndex`: index of the first element
satisfying `p`, `-1` when none does. -/
def findIndex (p : α → Bool) : List α → Int
  | [] => -1
  | x :: xs =>
    if p x then 0
    else
      let r := findIndex p xs
      if r = -1 then -1 else r + 1

/-- JavaScript array indexing `l[i]`: `undefined` (`none`) for a negative
index or an index past the end. -/
def jsIndex (l : List α) (i : Int) : Option α :=
  if i < 0 then none else l.get? i.toNat

/-- The `useMemo` body of `DocFooter`:
`idx = footerList.findIndex(item => isActive(item.url, pathname, false))`;
`{}` when `idx === -1`, otherwise
`{ previous: footerList[idx - 1], next: footerList[idx + 1] }`. -/
def neighbors (isActive : String → String → Bool → Bool) (pathname : String)
    (footerList : List Item) : Option Item × Option Item :=
  let idx := findIndex (fun item => isActive item.url pathname false) footerList
  if idx = -1 then (none, none)
  else (jsIndex footerList (idx - 1), jsIndex footerList (idx + 1))

/-- A rendered footer link: `href`, the displayed name, and the displayed
description text. -/
structure RenderedLink where
  href : String
  name : String
  description : String
  deriving DecidableEq, Repr

/-- `FooterItemLink`: renders `item.url`, `item.name` and
`item.description ?? (index === 0 ? 'Previous page' : 'Next page')`. -/
def renderFooterItemLink (item : Item) (index : Nat) : RenderedLink :=
  { href := item.url
    name := item.name
    description :=
      item.description.getD (if index = 0 then "Previous page" else "Next page") }

/-- The rendered `DocFooter`: optional previous link, the constant Home
link, optional next link, and the grid column class. -/
structure RenderedFooter where
  previousLink : Option RenderedLink
  homeHref : String
  homeLabel : String
  nextLink : Option RenderedLink
  columnClass : String
  deriving DecidableEq, Repr

/-- The JSX returned by `DocFooter`: previous link when present, the
constant `Home` link, next link when present; three grid columns when both
previous and next exist, two otherwise. -/
def renderDocFooter (isActive : String → String → Bool → Bool)
    (pathname : String) (footerList : List Item) : RenderedFooter :=
  let pn := neighbors isActive pathname footerList
  { previousLink := pn.1.map (fun it => renderFooterItemLink it 0)
    homeHref := "/"
    homeLabel := "Home"
    nextLink := pn.2.map (fun it => renderFooterItemLink it 1)
    columnClass :=
      if pn.1.isSome && pn.2.isSome then "md:grid-cols-3" else "md:grid-cols-2" }

/-- The renderable body of a page (the `ComponentType` `body`), abstracted
to a string identifier. -/
abbrev Body := String

/-- A table-of-contents value, abstracted. -/
abbrev Toc := String

/-- The content payload of a page: the fields of `page.data` as cast in
`page.tsx` — optional body at runtime (the `if (!MdxContent)` check guards
it), optional toc, title, description. -/
structure ContentPayload where
  body : Option Body
  toc : Option Toc
  title : Option String
  description : Option String
  deriving DecidableEq, Repr

/-- The awaited behavior of a node's `load()` collaborator: the promise
rejects with an error, resolves to `undefined` (returns nothing), or
resolves to a payload. -/
inductive LoadResult where
  | rejected (e : String)
  | resolvedUndefined
  | resolved (p : ContentPayload)
  deriving DecidableEq, Repr

/-- `page.data` as used by `page.tsx`: an optional `load` function
(`some r` when `typeof data.load === 'function'`, with `r` the awaited
behavior of `data.load()`), plus the inline payload fields used when no
`load` function is present. -/
structure PageData where
  load : Option LoadResult
  body : Option Body
  toc : Option Toc
  title : Option String
  description : Option String
  deriving DecidableEq, Repr

/-- A resolved page node as returned by `source.getPage`. -/
structure PageNode where
  data : PageData
  deriving DecidableEq, Repr

/-- A successfully rendered docs page: the `DocsPage` with optional title,
optional description and the materialized body. A rendered page always
carries a body — the `rendered` outcome cannot represent an empty-body
page. -/
structure RenderedPage where
  title : Option String
  description : Option String
  body : Body
  toc : Option Toc
  deriving DecidableEq, Repr

/-- The outcome of a request to the `Page` handler: the terminal not-found
outcome (`notFound()` was called), an exception escaping the handler (an
awaited rejection or a runtime `TypeError`), or a rendered page. -/
inductive RenderOutcome where
  | notFound
  | thrown (e : String)
  | rendered (r : RenderedPage)
  deriving DecidableEq, Repr

/-- `resolvedParams.slug ?? []`: a request with no slug resolves against
the empty slug. -/
def resolveParams (params : Option (List String)) : List String :=
  params.getD []

/-- The value of `loaded` in `page.tsx`
(`typeof data.load === 'function' ? await data.load() : data`) when the
evaluation completes without throwing: the resolved payload when `load` is
a function that resolves to one, the inline fields when there is no `load`
function, and `none` when the awaited call throws (rejection) or resolves
to `undefined`. -/
def loadedPayload (data : PageData) : Option ContentPayload :=
  match data.load with
  | some (.resolved p) => some p
  | some (.rejected _) => none
  | some .resolvedUndefined => none
  | none =>
    some { body := data.body, toc := data.toc
           title := data.title, description := data.description }

/-- The tail of `Page` after `loaded` is available:
`const MdxContent = loaded.body; if (!MdxContent) { notFound(); }` and
otherwise the `DocsPage` JSX with `loaded.title` / `loaded.description` /
the body. -/
def renderLoaded (loaded : ContentPayload) : RenderOutcome :=
  match loaded.body with
  | none => .notFound
  | some b =>
    .rendered { title := loaded.title, description := loaded.description
                body := b, toc := loaded.toc }

/-- The `Page` handler of `app/docs/[[...slug]]/page.tsx`:
look up `source.getPage(resolvedParams.slug ?? [])`; `notFound()` when no
page; otherwise materialize `loaded` (awaiting `data.load()` when it is a
function — a rejection or an `undefined` resolution makes the `await` /
the `loaded.body` access throw out of the handler) and render, calling
`notFound()` when the materialized payload has no body. -/
def renderPage (getPage : List String → Option PageNode)
    (params : Option (List String)) : RenderOutcome :=
  match getPage (resolveParams params) with
  | none => .notFound
  | some page =>
    match page.data.load with
    | some (.rejected e) => .thrown e
    | some .resolvedUndefined =>
      .thrown "TypeError: cannot read properties of undefined (reading body)"
    | some (.resolved loaded) => renderLoaded loaded
    | none =>
      renderLoaded
        { body := page.data.body, toc := page.data.toc
          title := page.data.title, description := page.data.description }

/-! ### Lemmas about the embedded JavaScript primitives -/

theorem findIndex_of_forall_not (p : α → Bool) (l : List α)
    (h : ∀ x ∈ l, p x = false) : findIndex p l = -1 := by
  induction l with
  | nil => rfl
  | cons x xs ih =>
    have hx : p x = false := h x (List.mem_cons_self x xs)
    have hxs : findIndex p xs = -1 :=
      ih (fun y hy => h y (List.mem_cons_of_mem x hy))
    simp [findIndex, hx, hxs]

theorem findIndex_eq_coe (p : α → Bool) (l : List α) (i : ℕ) (hi : i < l.length)
    (hp : p (l.get ⟨i, hi⟩) = true)
    (hb : ∀ j (hj : j < i), p (l.get ⟨j, Nat.lt_trans hj hi⟩) = false) :
    findIndex p l = (i : ℤ) := by
  induction l generalizing i with
  | nil => exact absurd hi (Nat.not_lt_zero i)
  | cons x xs ih =>
    cases i with
    | zero =>
      have hx : p x = true := hp
      simp [findIndex, hx]
    | succ j =>
      have hx : p x = false := hb 0 (Nat.succ_pos j)
      have hj : j < xs.length := Nat.lt_of_succ_lt_succ hi
      have hrec : findIndex p xs = (j : ℤ) := by
        refine ih j hj hp ?_
        intro k hk
        exact hb (k + 1) (Nat.succ_lt_succ hk)
      have hne : findIndex p xs ≠ -1 := by
        rw [hrec]; omega
      simp [findIndex, hx, hne, hrec]

theorem jsIndex_neg (l : List α) (i : Int) (h : i < 0) : jsIndex l i = none := by
  simp [jsIndex, h]

theorem jsIndex_len (l : List α) : jsIndex l (l.length : ℤ) = none := by
  simp [jsIndex, List.get?_eq_none.mpr (Nat.le_refl l.length)]

theorem jsIndex_coe (l : List α) (i : ℕ) (hi : i < l.length) :
    jsIndex l (i : ℤ) = some (l.get ⟨i, hi⟩) := by
  simp [jsIndex, List.get?_eq_get hi]

/-! ### Concrete data used by the witnesses -/

/-- A nav entry with url `/a` and no description. -/
def itemA : Item := { url := "/a", name := "A", description := none }

/-- A nav entry with url `/b` and a description. -/
def itemB : Item := { url := "/b", name := "B", description := some "bee" }

/-- A nav entry with url `/c` and no description. -/
def itemC : Item := { url := "/c", name := "C", description := none }

/-- The three-entry nav list of the spec scenario. -/
def demo3 : List Item := [itemA, itemB, itemC]

/-- An exact-equality `isActive` collaborator (the `false` mode argument
requests non-nested matching). -/
def actEq : String → String → Bool → Bool := fun url path _ => url == path

/-! ### Claims about the navigation sequencer -/

/-- C3: for every nav list and activeUrl such that exactly one entry is
active and its index `i` satisfies `0 < i < length - 1`, `neighbors`
returns `previous` equal to the entry at index `i - 1` and `next` equal to
the entry at index `i + 1`. -/
theorem C3_interior_neighbors (isActive : String → String → Bool → Bool)
    (pathname : String) (l : List Item) (i : ℕ)
    (h0 : 0 < i) (h1 : i + 1 < l.length)
    (hact : isActive (l.get ⟨i, by omega⟩).url pathname false = true)
    (huniq : ∀ j (hj : j < l.length), j ≠ i →
      isActive (l.get ⟨j, hj⟩).url pathname false = false) :
    neighbors isActive pathname l =
      (some (l.get ⟨i - 1, by omega⟩), some (l.get ⟨i + 1, h1⟩)) := by
  have hi : i < l.length := by omega
  have hidx : findIndex (fun it => isActive it.url pathname false) l = (i : ℤ) :=
    findIndex_eq_coe _ l i hi hact (fun j hj => huniq j _ (by omega))
  have hne : (i : ℤ) ≠ -1 := by omega
  have hm1 : (i : ℤ) - 1 = ((i - 1 : ℕ) : ℤ) := by omega
  have hp1 : (i : ℤ) + 1 = ((i + 1 : ℕ) : ℤ) := by omega
  simp only [neighbors, hidx, hne, if_false, hm1, hp1]
  rw [jsIndex_coe l (i - 1) (by omega), jsIndex_coe l (i + 1) h1]

/-- Witness for C3 at the spec scenario: list `/a`, `/b`, `/c` with
activeUrl `/b` gives previous `/a` and next `/c`. -/
theorem C3_witness :
    neighbors actEq "/b" demo3 = (some itemA, some itemC) := by
  have h := C3_interior_neighbors actEq "/b" demo3 1 (by decide) (by decide)
    (by decide) (by decide)
  simpa [demo3] using h

/-- C4: for every nav list and activeUrl for which no entry is active,
`neighbors` returns both previous and next undefined (and not an error
outcome — the function returns normally with the empty pair). -/
theorem C4_no_active (isActive : String → String → Bool → Bool)
    (pathname : String) (l : List Item)
    (h : ∀ it ∈ l, isActive it.url pathname false = false) :
    neighbors isActive pathname l = (none, none) := by
  have hidx : findIndex (fun it => isActive it.url pathname false) l = -1 :=
    findIndex_of_forall_not _ l (fun it hit => h it hit)
  simp [neighbors, hidx]

/-- Witness for C4 at the spec scenario: list `/a`, `/b` with activeUrl
`/z` gives previous and next both undefined. -/
theorem C4_witness : neighbors actEq "/z" [itemA, itemB] = (none, none) :=
  C4_no_active actEq "/z" [itemA, itemB] (by decide)

/-- C5: for every non-empty nav list, when the first entry is active,
`neighbors` returns previous undefined; when the active entry is the last
entry (and no earlier entry is active), `neighbors` returns next
undefined. -/
theorem C5_boundary_neighbors (isActive : String → String → Bool → Bool)
    (pathname : String) (l : List Item) (hne : l ≠ []) :
    (isActive (l.get ⟨0, List.length_pos.mpr hne⟩).url pathname false = true →
      (neighbors isActive pathname l).1 = none) ∧
    ((∀ j (hj : j < l.length - 1),
        isActive (l.get ⟨j, by omega⟩).url pathname false = false) →
      isActive (l.get ⟨l.length - 1,
        by have := List.length_pos.mpr hne; omega⟩).url pathname false = true →
      (neighbors isActive pathname l).2 = none) := by
  have hlen : 0 < l.length := List.length_pos.mpr hne
  constructor
  · intro h0
    have hidx : findIndex (fun it => isActive it.url pathname false) l = (0 : ℤ) :=
      findIndex_eq_coe _ l 0 hlen h0 (fun j hj => absurd hj (Nat.not_lt_zero j))
    have hz : (0 : ℤ) ≠ -1 := by omega
    simp only [neighbors, hidx, hz, if_false]
    exact jsIndex_neg l (0 - 1) (by omega)
  · intro hb hl
    have hidx : findIndex (fun it => isActive it.url pathname false) l
        = ((l.length - 1 : ℕ) : ℤ) :=
      findIndex_eq_coe _ l (l.length - 1) (by omega) hl (fun j hj => hb j hj)
    have hz : ((l.length - 1 : ℕ) : ℤ) ≠ -1 := by omega
    have hstep : ((l.length - 1 : ℕ) : ℤ) + 1 = (l.length : ℤ) := by omega
    simp only [neighbors, hidx, hz, if_false, hstep]
    exact jsIndex_len l

/-- Witness for C5: with activeUrl `/a` on the demo list previous is
undefined, and with activeUrl `/c` next is undefined. -/
theorem C5_witness :
    (neighbors actEq "/a" demo3).1 = none ∧
    (neighbors actEq "/c" demo3).2 = none :=
  ⟨(C5_boundary_neighbors actEq "/a" demo3 (by decide)).1 (by decide),
   (C5_boundary_neighbors actEq "/c" demo3 (by decide)).2 (by decide) (by decide)⟩

/-- C6: when more than one entry is active for the given activeUrl,
`neighbors` is determined by the first active index `i` in flattened list
order: the result is exactly the pair read at `i - 1` and `i + 1`. -/
theorem C6_first_match_wins (isActive : String → String → Bool → Bool)
    (pathname : String) (l : List Item) (i : ℕ) (hi : i < l.length)
    (hact : isActive (l.get ⟨i, hi⟩).url pathname false = true)
    (hfirst : ∀ j (hj : j < i),
      isActive (l.get ⟨j, Nat.lt_trans hj hi⟩).url pathname false = false)
    (_hmulti : ∃ k, ∃ hk : k < l.length, k ≠ i ∧
      isActive (l.get ⟨k, hk⟩).url pathname false = true) :
    neighbors isActive pathname l =
      (jsIndex l ((i : ℤ) - 1), jsIndex l ((i : ℤ) + 1)) := by
  have hidx : findIndex (fun it => isActive it.url pathname false) l = (i : ℤ) :=
    findIndex_eq_coe _ l i hi hact hfirst
  have hne : (i : ℤ) ≠ -1 := by omega
  simp only [neighbors, hidx, hne, if_false]

/-- Witness for C6: with two active entries (urls `/b` at indices 1 and 3),
the first active index 1 determines the result. -/
theorem C6_witness :
    neighbors actEq "/b" [itemA, itemB, itemC, itemB] = (some itemA, some itemC) := by
  have h := C6_first_match_wins actEq "/b" [itemA, itemB, itemC, itemB] 1
    (by decide) (by decide) (by decide) ⟨3, by decide, by decide, by decide⟩
  simpa [jsIndex] using h

/-- C7: `neighbors` is a pure, deterministic function of
(activeUrl, navList): two invocations with identical inputs (an identical
`isActive` collaborator, pathname and nav list) yield identical
(previous, next) pairs. -/
theorem C7_deterministic (f₁ f₂ : String → String → Bool → Bool)
    (p₁ p₂ : String) (l₁ l₂ : List Item)
    (hf : f₁ = f₂) (hp : p₁ = p₂) (hl : l₁ = l₂) :
    neighbors f₁ p₁ l₁ = neighbors f₂ p₂ l₂ := by
  subst hf; subst hp; subst hl; rfl

/-- Witness for C7 at a concrete input. -/
theorem C7_witness : neighbors actEq "/b" demo3 = neighbors actEq "/b" demo3 :=
  C7_deterministic actEq actEq "/b" "/b" demo3 demo3 rfl rfl rfl

/-- C10: the neighbors computation is total at list boundaries: the
out-of-bounds reads at index `-1` (active index 0) and at index `length`
(active index `length - 1`) yield `undefined` rather than an error, for
every nav list and activeUrl. -/
theorem C10_boundary_reads (isActive : String → String → Bool → Bool)
    (pathname : String) (l : List Item) :
    jsIndex l (-1) = none ∧
    jsIndex l (l.length : ℤ) = none ∧
    (findIndex (fun it => isActive it.url pathname false) l = 0 →
      (neighbors isActive pathname l).1 = none) ∧
    (findIndex (fun it => isActive it.url pathname false) l = (l.length : ℤ) - 1 →
      (neighbors isActive pathname l).2 = none) := by
  refine ⟨jsIndex_neg l (-1) (by omega), jsIndex_len l, ?_, ?_⟩
  · intro h
    have hz : (0 : ℤ) ≠ -1 := by omega
    simp only [neighbors, h, hz, if_false]
    exact jsIndex_neg l (0 - 1) (by omega)
  · intro h
    by_cases hlen : l.length = 0
    · have hm1 : findIndex (fun it => isActive it.url pathname false) l = -1 := by
        rw [h, hlen]; rfl
      simp [neighbors, hm1]
    · have hz : (l.length : ℤ) - 1 ≠ -1 := by omega
      have hstep : (l.length : ℤ) - 1 + 1 = (l.length : ℤ) := by ring
      simp only [neighbors, h, hz, if_false, hstep]
      exact jsIndex_len l

/-- Witness for C10 on a one-entry list where the active index is both 0
and `length - 1`. -/
theorem C10_witness :
    (neighbors actEq "/a" [itemA]).1 = none ∧
    (neighbors actEq "/a" [itemA]).2 = none :=
  ⟨(C10_boundary_reads actEq "/a" [itemA]).2.2.1 (by decide),
   (C10_boundary_reads actEq "/a" [itemA]).2.2.2 (by decide)⟩

/-- C8: every rendered previous/next footer link whose entry has no
description shows the default label — `Previous page` for the previous
link (index 0) and `Next page` for the next link (index 1) — and otherwise
the entry's own description; the previous and next links are exactly the
renderings of the `neighbors` pair; and the constant `Home` link (href `/`)
is rendered regardless of whether previous/next exist. -/
theorem C8_footer_rendering (isActive : String → String → Bool → Bool)
    (pathname : String) (l : List Item) :
    (renderDocFooter isActive pathname l).homeLabel = "Home" ∧
    (renderDocFooter isActive pathname l).homeHref = "/" ∧
    (renderDocFooter isActive pathname l).previousLink =
      ((neighbors isActive pathname l).1).map (fun it => renderFooterItemLink it 0) ∧
    (renderDocFooter isActive pathname l).nextLink =
      ((neighbors isActive pathname l).2).map (fun it => renderFooterItemLink it 1) ∧
    (∀ it : Item, it.description = none →
      (renderFooterItemLink it 0).description = "Previous page" ∧
      (renderFooterItemLink it 1).description = "Next page") ∧
    (∀ it : Item, ∀ d : String, it.description = some d →
      (renderFooterItemLink it 0).description = d ∧
      (renderFooterItemLink it 1).description = d) := by
  refine ⟨rfl, rfl, rfl, rfl, ?_, ?_⟩
  · intro it hd
    simp [renderFooterItemLink, hd]
  · intro it d hd
    simp [renderFooterItemLink, hd]

/-- Witness for C8: on the demo list with activeUrl `/b`, the previous
entry `/a` has no description so the previous link shows `Previous page`;
the home label is `Home`; and an entry with a description keeps it. -/
theorem C8_witness :
    (renderDocFooter actEq "/b" demo3).homeLabel = "Home" ∧
    (renderFooterItemLink itemA 0).description = "Previous page" ∧
    (renderFooterItemLink itemB 1).description = "bee" :=
  ⟨(C8_footer_rendering actEq "/b" demo3).1,
   ((C8_footer_rendering actEq "/b" demo3).2.2.2.2.1 itemA rfl).1,
   ((C8_footer_rendering actEq "/b" demo3).2.2.2.2.2 itemB "bee" rfl).2⟩

/-! ### Claims about the page handler -/

/-- A page node whose `load` collaborator rejects, used to decide C1. -/
def rejectingNode : PageNode :=
  { data := { load := some (.rejected "boom"), body := some "inline-body"
              toc := none, title := none, description := none } }

/-- A `getPage` collaborator returning the rejecting node for every slug. -/
def gpReject : List String → Option PageNode := fun _ => some rejectingNode

/-- A page node with no `load` function and no inline body. -/
def bodylessNode : PageNode :=
  { data := { load := none, body := none
              toc := none, title := none, description := none } }

/-- A `getPage` collaborator returning the bodyless node for every slug. -/
def gpBodyless : List String → Option PageNode := fun _ => some bodylessNode

/-- A `getPage` collaborator with an empty tree. -/
def gpEmpty : List String → Option PageNode := fun _ => none

/-- C1 counterexample: a resolved page node whose `load` collaborator
rejects does NOT render the not-found outcome — the rejection propagates
out of the handler as a thrown error, so the claim that every
materialization failure renders not-found is false on the code. -/
theorem C1_counterexample :
    renderPage gpReject (some ["a"]) = RenderOutcome.thrown "boom" ∧
    renderPage gpReject (some ["a"]) ≠ RenderOutcome.notFound := by
  exact ⟨rfl, by decide⟩

/-- C1 (amended): for every resolved page node whose materialization
completes with a payload (no rejection), if that payload has no renderable
body the request renders the not-found outcome — never a partial page with
an empty body (a `rendered` outcome carries a body by construction). A
rejecting or `undefined`-resolving `load` instead throws out of the
handler. -/
theorem C1_no_body_not_found (getPage : List String → Option PageNode)
    (params : Option (List String)) (page : PageNode) (pl : ContentPayload)
    (hres : getPage (resolveParams params) = some page)
    (hload : loadedPayload page.data = some pl)
    (hbody : pl.body = none) :
    renderPage getPage params = RenderOutcome.notFound := by
  unfold renderPage
  rw [hres]
  unfold loadedPayload at hload
  cases hld : page.data.load with
  | none =>
    rw [hld] at hload
    simp only [Option.some.injEq] at hload
    subst hload
    simp only [hld]
    simp only [ContentPayload.body] at hbody
    simp [renderLoaded, hbody]
  | some r =>
    cases r with
    | rejected e => rw [hld] at hload; exact absurd hload (by simp)
    | resolvedUndefined => rw [hld] at hload; exact absurd hload (by simp)
    | resolved p =>
      rw [hld] at hload
      simp only [Option.some.injEq] at hload
      subst hload
      simp only [hld]
      simp [renderLoaded, hbody]

/-- Witness for C1 (amended): the bodyless node renders not-found. -/
theorem C1_witness : renderPage gpBodyless (some ["a"]) = RenderOutcome.notFound :=
  C1_no_body_not_found gpBodyless (some ["a"]) bodylessNode
    { body := none, toc := none, title := none, description := none }
    rfl rfl rfl

/-- C2: for every slug for which `getPage` returns no page node, the
request produces the terminal not-found outcome, for every possible page
data and load behavior (so before any content materialization), and the
handler returns that outcome once — nothing is retried. -/
theorem C2_missing_page_not_found (getPage : List String → Option PageNode)
    (params : Option (List String))
    (h : getPage (resolveParams params) = none) :
    renderPage getPage params = RenderOutcome.notFound := by
  unfold renderPage
  rw [h]

/-- Witness for C2: the empty tree renders not-found for a concrete slug. -/
theorem C2_witness : renderPage gpEmpty (some ["nope"]) = RenderOutcome.notFound :=
  C2_missing_page_not_found gpEmpty (some ["nope"]) rfl

/-- C9: when the incoming route params carry no slug, resolution is invoked
with the empty slug (`resolvedParams.slug ?? []`), so a request without a
slug behaves exactly like a request for the root index page. -/
theorem C9_empty_slug_default :
    resolveParams none = ([] : List String) ∧
    ∀ getPage : List String → Option PageNode,
      renderPage getPage none = renderPage getPage (some []) :=
  ⟨rfl, fun _ => rfl⟩

end LastMinuteNotes
